import Mathlib

/-!
Verification of the bond arbitrage monitor and paper trading engine of the
stock-screener repository. The data model is embedded from
frontend/src/types/bonds.ts (the TypeScript mirror of the backend Pydantic
models); the UI decision logic is embedded from the React components
(PairCard, AlertSummary, OrderPanel, BondMonitorPage) and the axios client.
The backend service modules themselves (rolling stats, commission evaluator,
paper trade engine, refresh scheduler) are not part of the frontend sources,
so they are modelled from the design specification where a claim needs them;
each such definition is marked "Modelled from the spec" in its doc comment.
All market quantities are represented as rational numbers.
-/

-- ===========================================================================
-- Data model, from frontend/src/types/bonds.ts
-- ===========================================================================

/-- BondPairConfig (bonds.ts): immutable configuration of one monitored pair. -/
structure BondPairConfig where
  id : String
  label : String
  local_symbol : String
  ny_symbol : String
  description : String
deriving Repr, DecidableEq

/-- RatioSnapshot (bonds.ts): one price observation for a pair. The optional
rolling-stat fields are populated by the history endpoint for charting. -/
structure RatioSnapshot where
  pair_id : String
  timestamp : String
  local_price : ℚ
  ny_price : ℚ
  ratio : ℚ
  mean : Option ℚ
  upper2 : Option ℚ
  lower2 : Option ℚ
  upper1 : Option ℚ
  lower1 : Option ℚ
  z_score : Option ℚ
deriving Repr, DecidableEq

/-- RatioStats (bonds.ts): rolling Bollinger statistics of a pair. -/
structure RatioStats where
  mean : ℚ
  std : ℚ
  z_score : ℚ
  upper_band : ℚ
  lower_band : ℚ
  upper_band_1sigma : ℚ
  lower_band_1sigma : ℚ
  window_size : Nat
deriving Repr, DecidableEq

/-- CommissionInfo (bonds.ts): commission-aware spread analysis. -/
structure CommissionInfo where
  roundtrip_cost_pct : ℚ
  gross_spread_pct : ℚ
  net_spread_pct : ℚ
  is_profitable : Bool
  breakeven_ratio : ℚ
deriving Repr, DecidableEq

/-- AlertDirection (bonds.ts): which leg of the pair is relatively cheap. -/
inductive AlertDirection where
  | LOCAL_CHEAP
  | NY_CHEAP
deriving Repr, DecidableEq

/-- ArbitrageAlert (bonds.ts): a statistical anomaly raised for one pair. -/
structure ArbitrageAlert where
  pair_id : String
  pair_label : String
  timestamp : String
  ratio : ℚ
  z_score : ℚ
  direction : AlertDirection
  description : String
  commission : Option CommissionInfo
deriving Repr, DecidableEq

/-- EodAction (bonds.ts): the advised end-of-day action for a pair. -/
inductive EodAction where
  | hold
  | close
  | none
deriving Repr, DecidableEq

/-- BondPairState (bonds.ts): the per-pair read view assembled each cycle. -/
structure BondPairState where
  config : BondPairConfig
  latest : Option RatioSnapshot
  stats : Option RatioStats
  alert : Option ArbitrageAlert
  commission : Option CommissionInfo
  history : List RatioSnapshot
  last_fetch_error : Option String
  eod_signal : Bool
  eod_action : EodAction
deriving Repr, DecidableEq

/-- OrderSide (bonds.ts). -/
inductive OrderSide where
  | buy
  | sell
deriving Repr, DecidableEq

/-- OrderPlazo (bonds.ts): settlement term of an order. -/
inductive OrderPlazo where
  | t0
  | t1
  | t2
deriving Repr, DecidableEq

/-- BondOrderRequest (bonds.ts): payload sent to POST /bonds/order. -/
structure BondOrderRequest where
  pair_id : String
  symbol : String
  side : OrderSide
  quantity : ℚ
  price : ℚ
  plazo : OrderPlazo
  sandbox : Bool
deriving Repr, DecidableEq

/-- BondOrderResponse (bonds.ts): structured result of an order placement.
The raw_response JSON object is represented shallowly as a key-value list. -/
structure BondOrderResponse where
  success : Bool
  order_id : Option String
  message : String
  sandbox : Bool
  raw_response : Option (List (String × String))
deriving Repr, DecidableEq

/-- PaperTradeStatus (bonds.ts): "open" | "closed". The first constructor is
named opened because open is a reserved word in Lean. -/
inductive PaperTradeStatus where
  | opened
  | closed
deriving Repr, DecidableEq

/-- PaperTradeDirection (bonds.ts). -/
inductive PaperTradeDirection where
  | LOCAL_CHEAP
  | NY_CHEAP
deriving Repr, DecidableEq

/-- PaperCloseReason (bonds.ts). -/
inductive PaperCloseReason where
  | convergence
  | eod_close
  | manual
deriving Repr, DecidableEq

/-- PaperTrade (bonds.ts): the paper trade lifecycle entity. -/
structure PaperTrade where
  id : String
  pair_id : String
  pair_label : String
  opened_at : String
  open_ratio : ℚ
  open_z_score : ℚ
  direction : PaperTradeDirection
  open_local_bid : Option ℚ
  open_local_ask : Option ℚ
  open_ny_bid : Option ℚ
  open_ny_ask : Option ℚ
  open_exec_ratio : Option ℚ
  open_slippage_pct : Option ℚ
  closed_at : Option String
  close_ratio : Option ℚ
  close_z_score : Option ℚ
  close_reason : Option PaperCloseReason
  close_local_bid : Option ℚ
  close_local_ask : Option ℚ
  close_ny_bid : Option ℚ
  close_ny_ask : Option ℚ
  close_exec_ratio : Option ℚ
  close_slippage_pct : Option ℚ
  notional_ars : ℚ
  roundtrip_commission_pct : ℚ
  gross_pnl_pct : Option ℚ
  net_pnl_pct : Option ℚ
  gross_pnl_ars : Option ℚ
  net_pnl_ars : Option ℚ
  status : PaperTradeStatus
deriving Repr, DecidableEq

/-- PaperTradeStats (bonds.ts): aggregate over closed trades. -/
structure PaperTradeStats where
  total_trades : Nat
  winning_trades : Nat
  losing_trades : Nat
  win_rate_pct : ℚ
  avg_gross_pnl_pct : ℚ
  avg_net_pnl_pct : ℚ
  total_gross_pnl_ars : ℚ
  total_net_pnl_ars : ℚ
  avg_duration_hours : ℚ
deriving Repr, DecidableEq

/-- PaperTradeResponse (bonds.ts): payload of GET /bonds/paper-trades. -/
structure PaperTradeResponse where
  open_trades : List PaperTrade
  closed_trades : List PaperTrade
  stats : Option PaperTradeStats
  notional_ars : ℚ
deriving Repr, DecidableEq

-- ===========================================================================
-- CommissionEvaluator (claim C2)
-- ===========================================================================

/-- Modelled from the spec: the backend CommissionEvaluator module is not
under src/ (only its TypeScript output shape CommissionInfo is). Per the
design: gross_spread_pct = |ratio - mean| / mean * 100, net_spread_pct =
gross_spread_pct - commission_rate * 100, is_profitable = net_spread_pct > 0,
breakeven_ratio = mean adjusted by the commission rate in the direction that
makes the spread exactly zero-net. The commission rate is a fraction
(e.g. 0.005 = 0.5 percent). -/
def evaluateCommission (r mean commission_rate : ℚ) : CommissionInfo :=
  let gross := |r - mean| / mean * 100
  let net := gross - commission_rate * 100
  { roundtrip_cost_pct := commission_rate * 100
    gross_spread_pct := gross
    net_spread_pct := net
    is_profitable := decide (0 < net)
    breakeven_ratio := if mean ≤ r then mean * (1 + commission_rate) else mean * (1 - commission_rate) }

/-- Claim C2: for every CommissionInfo computed from a (ratio, mean, rate)
triple with mean > 0, is_profitable is true iff gross_spread_pct exceeds
commission_rate * 100; this follows from net_spread_pct = gross_spread_pct -
commission_rate * 100 and is_profitable = net_spread_pct > 0. -/
theorem c2_is_profitable_iff_gross_exceeds_commission
    (r mean rate : ℚ) (hmean : 0 < mean) :
    ((evaluateCommission r mean rate).is_profitable = true ↔
      rate * 100 < (evaluateCommission r mean rate).gross_spread_pct) ∧
    (evaluateCommission r mean rate).net_spread_pct =
      (evaluateCommission r mean rate).gross_spread_pct - rate * 100 := by
  constructor
  · simp only [evaluateCommission, decide_eq_true_eq]
    exact sub_pos
  · simp [evaluateCommission]

/-- Witness for C2 at ratio = 51/50, mean = 1, rate = 1/200 (0.5 percent):
gross spread 2 percent, commission 0.5 percent, profitable. -/
theorem c2_is_profitable_iff_gross_exceeds_commission_witness :
    ((evaluateCommission (51/50) 1 (1/200)).is_profitable = true ↔
      (1/200 : ℚ) * 100 < (evaluateCommission (51/50) 1 (1/200)).gross_spread_pct) ∧
    (evaluateCommission (51/50) 1 (1/200)).net_spread_pct =
      (evaluateCommission (51/50) 1 (1/200)).gross_spread_pct - (1/200) * 100 :=
  c2_is_profitable_iff_gross_exceeds_commission (51/50) 1 (1/200) (by norm_num)

-- ===========================================================================
-- PaperTradeEngine (claims C1, C3, C6)
-- ===========================================================================

/-- Best-available bid/ask quotes for the two legs of a pair, as supplied by
the upstream quote feed; any of them may be missing. -/
structure PairQuotes where
  local_bid : Option ℚ
  local_ask : Option ℚ
  ny_bid : Option ℚ
  ny_ask : Option ℚ
deriving Repr, DecidableEq

/-- Modelled from the spec: PaperTradeEngine configuration, section 4.5 of the
design (the backend engine module is not under src/). Defaults: open
threshold 1.0 sigma, close threshold 0.5 sigma. -/
structure PaperTradeConfig where
  open_threshold : ℚ
  close_threshold : ℚ
  notional_ars : ℚ
deriving Repr, DecidableEq

/-- Modelled from the spec: the per-pair per-cycle input consumed by the
PaperTradeEngine — latest ratio and z-score, bid/ask quotes if available, the
EOD advisory, the currently configured round-trip commission rate (percent),
and whether an operator requested a manual close this cycle. -/
structure CycleInput where
  timestamp : String
  ratio : ℚ
  z_score : ℚ
  quotes : PairQuotes
  eod_action : EodAction
  commission_pct : ℚ
  manual_close : Bool
deriving Repr, DecidableEq

/-- Which leg is bought when entering a position: LOCAL_CHEAP means buy the
local leg and sell the NY leg; NY_CHEAP the reverse. -/
def buysLocalOnOpen : PaperTradeDirection → Bool
  | PaperTradeDirection.LOCAL_CHEAP => true
  | PaperTradeDirection.NY_CHEAP => false

/-- Modelled from the spec: bid/ask-weighted execution ratio, direction
appropriate — the leg being bought uses its ask, the leg being sold uses its
bid. Returns none when the needed quotes are unavailable. -/
def execRatioForLegs (buyLocal : Bool) (q : PairQuotes) : Option ℚ :=
  if buyLocal then
    match q.local_ask, q.ny_bid with
    | some a, some b => some (a / b)
    | _, _ => Option.none
  else
    match q.local_bid, q.ny_ask with
    | some b, some a => some (b / a)
    | _, _ => Option.none

/-- Modelled from the spec: execution capture on open or close. When bid/ask
are available the execution ratio is computed from them and slippage is
(exec - last) / last; when unavailable, both fields are absent (null) and the
effective execution ratio falls back to the last-price ratio. -/
def execCapture (buyLocal : Bool) (q : PairQuotes) (lastRatio : ℚ) :
    Option ℚ × Option ℚ :=
  match execRatioForLegs buyLocal q with
  | some e => (some e, some ((e - lastRatio) / lastRatio))
  | Option.none => (Option.none, Option.none)

/-- The execution ratio effectively used for P&L on the open side: the
captured exec ratio when present, else the last-price ratio at open. -/
def effectiveOpenExec (t : PaperTrade) : ℚ :=
  t.open_exec_ratio.getD t.open_ratio

/-- Modelled from the spec: raw return of a closed position.
LOCAL_CHEAP profits when the ratio rises, NY_CHEAP when it falls. -/
def rawReturn (dir : PaperTradeDirection) (openExec closeExec : ℚ) : ℚ :=
  match dir with
  | PaperTradeDirection.LOCAL_CHEAP => (closeExec - openExec) / openExec
  | PaperTradeDirection.NY_CHEAP => (openExec - closeExec) / openExec

/-- Modelled from the spec: opening a paper trade — capture direction from the
sign convention (z below zero means ratio below mean, hence LOCAL_CHEAP),
last ratio, z-score, bid/ask and execution data, the fixed notional, and a
snapshot of the configured round-trip commission rate. -/
def openPaperTrade (cfg : PaperTradeConfig) (pair : BondPairConfig)
    (tid : Nat) (inp : CycleInput) : PaperTrade :=
  let dir := if inp.z_score < 0 then PaperTradeDirection.LOCAL_CHEAP
             else PaperTradeDirection.NY_CHEAP
  let cap := execCapture (buysLocalOnOpen dir) inp.quotes inp.ratio
  { id := toString tid
    pair_id := pair.id
    pair_label := pair.label
    opened_at := inp.timestamp
    open_ratio := inp.ratio
    open_z_score := inp.z_score
    direction := dir
    open_local_bid := inp.quotes.local_bid
    open_local_ask := inp.quotes.local_ask
    open_ny_bid := inp.quotes.ny_bid
    open_ny_ask := inp.quotes.ny_ask
    open_exec_ratio := cap.1
    open_slippage_pct := cap.2
    closed_at := Option.none
    close_ratio := Option.none
    close_z_score := Option.none
    close_reason := Option.none
    close_local_bid := Option.none
    close_local_ask := Option.none
    close_ny_bid := Option.none
    close_ny_ask := Option.none
    close_exec_ratio := Option.none
    close_slippage_pct := Option.none
    notional_ars := cfg.notional_ars
    roundtrip_commission_pct := inp.commission_pct
    gross_pnl_pct := Option.none
    net_pnl_pct := Option.none
    gross_pnl_ars := Option.none
    net_pnl_ars := Option.none
    status := PaperTradeStatus.opened }

/-- Modelled from the spec: closing a paper trade — same bid/ask, execution
ratio and slippage capture as the open side using close-side quotes (the legs
invert: the leg bought at open is sold at close), record the close reason and
realized P&L. net_pnl_pct subtracts the commission rate captured at open
(roundtrip_commission_pct stored on the trade), not the currently configured
rate. -/
def closePaperTrade (t : PaperTrade) (inp : CycleInput)
    (reason : PaperCloseReason) : PaperTrade :=
  let cap := execCapture (!buysLocalOnOpen t.direction) inp.quotes inp.ratio
  let closeEff := cap.1.getD inp.ratio
  let gross := rawReturn t.direction (effectiveOpenExec t) closeEff * 100
  let net := gross - t.roundtrip_commission_pct
  { t with
    closed_at := some inp.timestamp
    close_ratio := some inp.ratio
    close_z_score := some inp.z_score
    close_reason := some reason
    close_local_bid := inp.quotes.local_bid
    close_local_ask := inp.quotes.local_ask
    close_ny_bid := inp.quotes.ny_bid
    close_ny_ask := inp.quotes.ny_ask
    close_exec_ratio := cap.1
    close_slippage_pct := cap.2
    gross_pnl_pct := some gross
    net_pnl_pct := some net
    gross_pnl_ars := some (gross / 100 * t.notional_ars)
    net_pnl_ars := some (net / 100 * t.notional_ars)
    status := PaperTradeStatus.closed }

/-- Modelled from the spec: close-trigger evaluation, first match of
(a) convergence |z| at or below the close threshold, (b) EOD forced close,
(c) manual close. -/
def closeReasonFor (cfg : PaperTradeConfig) (inp : CycleInput) :
    Option PaperCloseReason :=
  if |inp.z_score| ≤ cfg.close_threshold then some PaperCloseReason.convergence
  else if inp.eod_action = EodAction.close then some PaperCloseReason.eod_close
  else if inp.manual_close then some PaperCloseReason.manual
  else Option.none

/-- True when the trade belongs to the given pair and is still open. -/
def isOpenFor (p : String) (t : PaperTrade) : Bool :=
  decide (t.pair_id = p ∧ t.status = PaperTradeStatus.opened)

/-- Modelled from the spec: PaperTradeEngine state — the append-only trade
log (open and closed trades) plus the id counter for new trades. -/
structure EngineState where
  trades : List PaperTrade
  nextId : Nat
deriving Repr, DecidableEq

/-- The empty engine state at process start. -/
def initialEngineState : EngineState :=
  { trades := [], nextId := 0 }

/-- Modelled from the spec: one refresh-cycle step of the PaperTradeEngine
for one pair. If an open trade exists for the pair, evaluate the close
triggers and close it in place when one fires; otherwise open a new trade
when |z| reaches the open threshold. Closed trades are never deleted. -/
def stepPair (cfg : PaperTradeConfig) (pair : BondPairConfig)
    (st : EngineState) (inp : CycleInput) : EngineState :=
  if st.trades.any (isOpenFor pair.id) then
    match closeReasonFor cfg inp with
    | some reason =>
        { st with trades := st.trades.map (fun t =>
            if isOpenFor pair.id t then closePaperTrade t inp reason else t) }
    | Option.none => st
  else if cfg.open_threshold ≤ |inp.z_score| then
    { trades := openPaperTrade cfg pair st.nextId inp :: st.trades
      nextId := st.nextId + 1 }
  else st

/-- Modelled from the spec: a run of the engine over an arbitrary sequence of
per-pair refresh-cycle inputs, starting from the empty state. A full refresh
cycle over several pairs is a block of consecutive steps. -/
def runEngine (cfg : PaperTradeConfig)
    (steps : List (BondPairConfig × CycleInput)) : EngineState :=
  steps.foldl (fun st pc => stepPair cfg pc.1 st pc.2) initialEngineState

/-- The open_trades list of the paper trade response (GET /bonds/paper-trades)
as assembled from the engine state. -/
def openTradesOf (st : EngineState) : List PaperTrade :=
  st.trades.filter (fun t => decide (t.status = PaperTradeStatus.opened))

-- ---------------------------------------------------------------------------
-- C1: at most one open trade per pair
-- ---------------------------------------------------------------------------

/-- Number of open trades of a given pair in a trade log. -/
def openCountFor (p : String) (trades : List PaperTrade) : Nat :=
  (trades.filter (isOpenFor p)).length

theorem isOpenFor_closePaperTrade (p : String) (t : PaperTrade)
    (inp : CycleInput) (reason : PaperCloseReason) :
    isOpenFor p (closePaperTrade t inp reason) = false := by
  simp [isOpenFor, closePaperTrade]

theorem openCount_map_le (p : String) (f : PaperTrade → PaperTrade)
    (hf : ∀ t, isOpenFor p (f t) = true → isOpenFor p t = true) :
    ∀ l : List PaperTrade, openCountFor p (l.map f) ≤ openCountFor p l := by
  intro l
  induction l with
  | nil => simp [openCountFor]
  | cons a l ih =>
      simp only [openCountFor, List.map_cons, List.filter_cons] at *
      by_cases hfa : isOpenFor p (f a) = true
      · rw [hfa, hf a hfa]
        simpa using ih
      · rw [Bool.not_eq_true] at hfa
        rw [hfa]
        by_cases ha : isOpenFor p a = true
        · rw [ha]
          simp only [List.length_cons]
          exact Nat.le_succ_of_le ih
        · rw [Bool.not_eq_true] at ha
          rw [ha]
          exact ih

theorem openCount_eq_zero_of_not_any (p : String) (l : List PaperTrade)
    (h : l.any (isOpenFor p) = false) : openCountFor p l = 0 := by
  simp only [openCountFor, List.length_eq_zero, List.filter_eq_nil_iff]
  intro t ht
  have := List.any_eq_false.mp h t ht
  simpa using this

/-- The per-pair open-count invariant is preserved by one engine step. -/
theorem stepPair_preserves_openCount (cfg : PaperTradeConfig)
    (pair : BondPairConfig) (st : EngineState) (inp : CycleInput)
    (p : String) (h : openCountFor p st.trades ≤ 1) :
    openCountFor p (stepPair cfg pair st inp).trades ≤ 1 := by
  unfold stepPair
  by_cases hopen : st.trades.any (isOpenFor pair.id) = true
  · rw [if_pos hopen]
    cases hr : closeReasonFor cfg inp with
    | none => simpa using h
    | some reason =>
        simp only
        refine le_trans (openCount_map_le p _ ?_ st.trades) h
        intro t ht
        by_cases hcase : isOpenFor pair.id t = true
        · rw [if_pos hcase] at ht
          rw [isOpenFor_closePaperTrade] at ht
          exact absurd ht (by simp)
        · rwa [if_neg hcase] at ht
  · rw [if_neg hopen]
    rw [Bool.not_eq_true] at hopen
    by_cases hth : cfg.open_threshold ≤ |inp.z_score|
    · rw [if_pos hth]
      simp only [openCountFor, List.filter_cons]
      by_cases hnew : isOpenFor p (openPaperTrade cfg pair st.nextId inp) = true
      · rw [hnew]
        have hpid : p = pair.id := by
          have := of_decide_eq_true hnew
          simp only [openPaperTrade] at this
          exact this.1.symm
        have hz : openCountFor p st.trades = 0 := by
          rw [hpid]
          exact openCount_eq_zero_of_not_any pair.id st.trades hopen
        simp only [openCountFor] at hz
        simp [hz]
      · rw [Bool.not_eq_true] at hnew
        rw [hnew]
        exact h
    · rw [if_neg hth]
      exact h

/-- Claim C1: for every pair and every sequence of refresh cycles of the
paper-trade engine, at most one PaperTrade with status open exists for that
pair at any time; equivalently the open_trades list of the paper-trade
response contains at most one trade per pair_id. -/
theorem c1_at_most_one_open_trade_per_pair (cfg : PaperTradeConfig)
    (steps : List (BondPairConfig × CycleInput)) (p : String) :
    openCountFor p (runEngine cfg steps).trades ≤ 1 ∧
    ((openTradesOf (runEngine cfg steps)).filter
      (fun t => decide (t.pair_id = p))).length ≤ 1 := by
  have hmain : ∀ (st : EngineState), (∀ q, openCountFor q st.trades ≤ 1) →
      ∀ q, openCountFor q (steps.foldl (fun s pc => stepPair cfg pc.1 s pc.2) st).trades ≤ 1 := by
    induction steps with
    | nil => intro st h q; simpa using h q
    | cons a l ih =>
        intro st h q
        simp only [List.foldl_cons]
        exact ih (stepPair cfg a.1 st a.2)
          (fun q2 => stepPair_preserves_openCount cfg a.1 st a.2 q2 (h q2)) q
  have h1 : openCountFor p (runEngine cfg steps).trades ≤ 1 := by
    unfold runEngine
    exact hmain initialEngineState
      (fun q => by simp [openCountFor, initialEngineState]) p
  refine ⟨h1, ?_⟩
  have heq : ((openTradesOf (runEngine cfg steps)).filter
      (fun t => decide (t.pair_id = p))) =
      (runEngine cfg steps).trades.filter (isOpenFor p) := by
    simp only [openTradesOf, List.filter_filter]
    apply List.filter_congr
    intro t _
    simp only [isOpenFor, Bool.decide_and, Bool.and_comm]
  rw [heq]
  exact h1

-- ---------------------------------------------------------------------------
-- C3: net_pnl_pct = gross_pnl_pct - roundtrip_commission_pct captured at open
-- ---------------------------------------------------------------------------

/-- The round-trip P&L identity of a closed trade: net equals gross minus the
commission rate snapshot stored on the trade. -/
def pnlClosedIdentity (t : PaperTrade) : Prop :=
  ∃ g, t.gross_pnl_pct = some g ∧
    t.net_pnl_pct = some (g - t.roundtrip_commission_pct)

theorem closePaperTrade_pnl_identity (t : PaperTrade) (inp : CycleInput)
    (reason : PaperCloseReason) : pnlClosedIdentity (closePaperTrade t inp reason) := by
  refine ⟨rawReturn t.direction (effectiveOpenExec t)
    ((execCapture (!buysLocalOnOpen t.direction) inp.quotes inp.ratio).1.getD inp.ratio) * 100,
    ?_, ?_⟩ <;> simp [closePaperTrade]

theorem openPaperTrade_status (cfg : PaperTradeConfig) (pair : BondPairConfig)
    (tid : Nat) (inp : CycleInput) :
    (openPaperTrade cfg pair tid inp).status = PaperTradeStatus.opened := by
  simp [openPaperTrade]

theorem stepPair_preserves_closed_identity (cfg : PaperTradeConfig)
    (pair : BondPairConfig) (st : EngineState) (inp : CycleInput)
    (h : ∀ t ∈ st.trades, t.status = PaperTradeStatus.closed → pnlClosedIdentity t) :
    ∀ t ∈ (stepPair cfg pair st inp).trades,
      t.status = PaperTradeStatus.closed → pnlClosedIdentity t := by
  unfold stepPair
  by_cases hopen : st.trades.any (isOpenFor pair.id) = true
  · rw [if_pos hopen]
    cases hr : closeReasonFor cfg inp with
    | none => exact h
    | some reason =>
        intro t ht hclosed
        simp only [List.mem_map] at ht
        obtain ⟨t0, ht0, rfl⟩ := ht
        by_cases hcase : isOpenFor pair.id t0 = true
        · rw [if_pos hcase]
          exact closePaperTrade_pnl_identity t0 inp reason
        · rw [if_neg hcase]
          rw [if_neg hcase] at hclosed
          exact h t0 ht0 hclosed
  · rw [if_neg hopen]
    by_cases hth : cfg.open_threshold ≤ |inp.z_score|
    · rw [if_pos hth]
      intro t ht hclosed
      simp only [List.mem_cons] at ht
      cases ht with
      | inl hnew =>
          rw [hnew] at hclosed
          rw [openPaperTrade_status] at hclosed
          exact absurd hclosed (by simp)
      | inr hmem => exact h t hmem hclosed
    · rw [if_neg hth]
      exact h

theorem stepPair_closed_persists (cfg : PaperTradeConfig)
    (pair : BondPairConfig) (st : EngineState) (inp : CycleInput)
    (t : PaperTrade) (hmem : t ∈ st.trades)
    (hclosed : t.status = PaperTradeStatus.closed) :
    t ∈ (stepPair cfg pair st inp).trades := by
  unfold stepPair
  by_cases hopen : st.trades.any (isOpenFor pair.id) = true
  · rw [if_pos hopen]
    cases hr : closeReasonFor cfg inp with
    | none => exact hmem
    | some reason =>
        simp only [List.mem_map]
        refine ⟨t, hmem, ?_⟩
        have : isOpenFor pair.id t = false := by
          simp [isOpenFor, hclosed]
        rw [this]
        simp
  · rw [if_neg hopen]
    by_cases hth : cfg.open_threshold ≤ |inp.z_score|
    · rw [if_pos hth]
      exact List.mem_cons_of_mem _ hmem
    · rw [if_neg hth]
      exact hmem

theorem foldl_closed_persists (cfg : PaperTradeConfig)
    (suffix : List (BondPairConfig × CycleInput)) :
    ∀ (st : EngineState) (t : PaperTrade), t ∈ st.trades →
      t.status = PaperTradeStatus.closed →
      t ∈ (suffix.foldl (fun s pc => stepPair cfg pc.1 s pc.2) st).trades := by
  induction suffix with
  | nil => intro st t hmem _; simpa using hmem
  | cons a l ih =>
      intro st t hmem hclosed
      simp only [List.foldl_cons]
      exact ih (stepPair cfg a.1 st a.2) t
        (stepPair_closed_persists cfg a.1 st a.2 t hmem hclosed) hclosed

/-- Claim C3: for every closed PaperTrade produced by any run of the engine,
net_pnl_pct equals gross_pnl_pct minus the round-trip commission rate that
was captured at open (the roundtrip_commission_pct field stored on the
trade), exactly; and a closed trade persists unchanged in the log through all
later cycles, so later changes to the configured commission rate (carried per
cycle in the inputs) never alter historical trades. -/
theorem c3_closed_trade_net_pnl_identity (cfg : PaperTradeConfig)
    (steps : List (BondPairConfig × CycleInput)) :
    (∀ t ∈ (runEngine cfg steps).trades, t.status = PaperTradeStatus.closed →
      ∃ g, t.gross_pnl_pct = some g ∧
        t.net_pnl_pct = some (g - t.roundtrip_commission_pct)) ∧
    (∀ (pre suf : List (BondPairConfig × CycleInput)), steps = pre ++ suf →
      ∀ t ∈ (runEngine cfg pre).trades, t.status = PaperTradeStatus.closed →
        t ∈ (runEngine cfg steps).trades) := by
  constructor
  · have hmain : ∀ (st : EngineState),
        (∀ t ∈ st.trades, t.status = PaperTradeStatus.closed → pnlClosedIdentity t) →
        ∀ t ∈ (steps.foldl (fun s pc => stepPair cfg pc.1 s pc.2) st).trades,
          t.status = PaperTradeStatus.closed → pnlClosedIdentity t := by
      induction steps with
      | nil => intro st h; simpa using h
      | cons a l ih =>
          intro st h
          simp only [List.foldl_cons]
          exact ih (stepPair cfg a.1 st a.2)
            (stepPair_preserves_closed_identity cfg a.1 st a.2 h)
    unfold runEngine
    exact hmain initialEngineState (by intro t ht; simp [initialEngineState] at ht)
  · intro pre suf hsplit t hmem hclosed
    rw [hsplit]
    unfold runEngine
    rw [List.foldl_append]
    exact foldl_closed_persists cfg suf (runEngine cfg pre) t hmem hclosed

-- ---------------------------------------------------------------------------
-- Concrete run used by the witnesses: one pair, a trade opens at z = 2 and
-- closes by convergence at z = 0, with no bid/ask quotes available.
-- ---------------------------------------------------------------------------

/-- Witness pair configuration. -/
def pairW : BondPairConfig :=
  { id := "al30", label := "AL30 / AL30D", local_symbol := "AL30",
    ny_symbol := "AL30D", description := "Bonar 2030" }

/-- Witness engine configuration: open at 1.0 sigma, close at 0.5 sigma. -/
def cfgW : PaperTradeConfig :=
  { open_threshold := 1, close_threshold := 1/2, notional_ars := 100000 }

/-- Witness quotes with no bid/ask available. -/
def quotesNoneW : PairQuotes :=
  { local_bid := Option.none, local_ask := Option.none,
    ny_bid := Option.none, ny_ask := Option.none }

/-- Witness cycle input that opens a trade (z = 2, rate 0.5 percent). -/
def inpOpenW : CycleInput :=
  { timestamp := "2024-01-02T14:00:00", ratio := 51/50, z_score := 2,
    quotes := quotesNoneW, eod_action := EodAction.none,
    commission_pct := 1/2, manual_close := false }

/-- Witness cycle input that closes the trade by convergence (z = 0), with a
different configured commission rate in force. -/
def inpCloseW : CycleInput :=
  { timestamp := "2024-01-02T15:00:00", ratio := 1, z_score := 0,
    quotes := quotesNoneW, eod_action := EodAction.none,
    commission_pct := 7/10, manual_close := false }

/-- Witness step sequence: the open cycle, then the close cycle. -/
def stepsW : List (BondPairConfig × CycleInput) :=
  [(pairW, inpOpenW), (pairW, inpCloseW)]

/-- The single trade produced by the witness run. -/
def tradeW : PaperTrade :=
  closePaperTrade (openPaperTrade cfgW pairW 0 inpOpenW) inpCloseW
    PaperCloseReason.convergence

/-- Witness for C3: in the concrete two-cycle run, the closed trade satisfies
the round-trip identity; its stored rate is the one in force at open. -/
theorem c3_closed_trade_net_pnl_identity_witness :
    ∃ g, tradeW.gross_pnl_pct = some g ∧
      tradeW.net_pnl_pct = some (g - tradeW.roundtrip_commission_pct) :=
  (c3_closed_trade_net_pnl_identity cfgW stepsW).1 tradeW
    (by
      have h : (runEngine cfgW stepsW).trades = [tradeW] := by
        simp [runEngine, stepsW, initialEngineState, stepPair, isOpenFor,
          closeReasonFor, cfgW, inpOpenW, inpCloseW, pairW, quotesNoneW,
          openPaperTrade, execCapture, execRatioForLegs, buysLocalOnOpen,
          tradeW, closePaperTrade]
      rw [h]
      exact List.mem_singleton.mpr rfl)
    (by simp [tradeW, closePaperTrade])

-- ---------------------------------------------------------------------------
-- C6: slippage is null exactly when bid/ask quotes are unavailable
-- ---------------------------------------------------------------------------

/-- Claim C6: for every paper trade opened or closed, the slippage field is
absent (null) exactly when the bid/ask execution ratio is unavailable, in
which case the effective execution ratio falls back to the last-price ratio;
when bid/ask are available the slippage is an actual number. Missing slippage
is therefore always the distinct absent value, never encoded as 0. -/
theorem c6_slippage_absent_iff_quotes_missing :
    (∀ (buyLocal : Bool) (q : PairQuotes) (last : ℚ),
      ((execCapture buyLocal q last).2 = Option.none ↔
        execRatioForLegs buyLocal q = Option.none) ∧
      (execRatioForLegs buyLocal q = Option.none →
        (execCapture buyLocal q last).1.getD last = last) ∧
      (∀ e, execRatioForLegs buyLocal q = some e →
        (execCapture buyLocal q last).2 = some ((e - last) / last))) ∧
    (∀ (cfg : PaperTradeConfig) (pair : BondPairConfig) (tid : Nat) (inp : CycleInput),
      (openPaperTrade cfg pair tid inp).open_slippage_pct = Option.none →
        (openPaperTrade cfg pair tid inp).open_exec_ratio = Option.none ∧
        effectiveOpenExec (openPaperTrade cfg pair tid inp) =
          (openPaperTrade cfg pair tid inp).open_ratio) ∧
    (∀ (t : PaperTrade) (inp : CycleInput) (reason : PaperCloseReason),
      (closePaperTrade t inp reason).close_slippage_pct = Option.none ↔
        execRatioForLegs (!buysLocalOnOpen t.direction) inp.quotes = Option.none) := by
  refine ⟨?_, ?_, ?_⟩
  · intro buyLocal q last
    refine ⟨?_, ?_, ?_⟩
    · cases h : execRatioForLegs buyLocal q <;> simp [execCapture, h]
    · intro h; simp [execCapture, h]
    · intro e h; simp [execCapture, h]
  · intro cfg pair tid inp hnone
    cases h : execRatioForLegs
        (buysLocalOnOpen (if inp.z_score < 0 then PaperTradeDirection.LOCAL_CHEAP
          else PaperTradeDirection.NY_CHEAP)) inp.quotes with
    | none =>
        constructor
        · simp [openPaperTrade, execCapture, h]
        · simp [effectiveOpenExec, openPaperTrade, execCapture, h]
    | some e =>
        exfalso
        simp [openPaperTrade, execCapture, h] at hnone
  · intro t inp reason
    cases h : execRatioForLegs (!buysLocalOnOpen t.direction) inp.quotes <;>
      simp [closePaperTrade, execCapture, h]

/-- Witness for C6: with no bid/ask available, the witness open trade has
null slippage, null execution ratio, and falls back to the last ratio; and
the close side of the witness trade also reports null slippage. -/
theorem c6_slippage_absent_iff_quotes_missing_witness :
    ((openPaperTrade cfgW pairW 0 inpOpenW).open_exec_ratio = Option.none ∧
      effectiveOpenExec (openPaperTrade cfgW pairW 0 inpOpenW) =
        (openPaperTrade cfgW pairW 0 inpOpenW).open_ratio) ∧
    ((execCapture true quotesNoneW 1).2 = Option.none ↔
      execRatioForLegs true quotesNoneW = Option.none) :=
  ⟨(c6_slippage_absent_iff_quotes_missing).2.1 cfgW pairW 0 inpOpenW
      (by simp [openPaperTrade, inpOpenW, quotesNoneW, execCapture,
        execRatioForLegs, buysLocalOnOpen]),
    ((c6_slippage_absent_iff_quotes_missing).1 true quotesNoneW 1).1⟩

-- ===========================================================================
-- UI decision logic (claims C4, C7, C9)
-- ===========================================================================

/-- The four color tiers of the ZScoreBadge component (PairCard). -/
inductive ZBadgeColor where
  | red
  | orange
  | yellow
  | emerald
deriving Repr, DecidableEq

/-- ZScoreBadge (PairCard): severity color of a z-score badge, embedded from
the conditional chain
abs at least 2.5 red, else abs at least 2.0 orange, else abs at least 1.0
yellow, else emerald. -/
def zScoreBadgeColor (z : ℚ) : ZBadgeColor :=
  let a := |z|
  if a ≥ 2.5 then ZBadgeColor.red
  else if a ≥ 2.0 then ZBadgeColor.orange
  else if a ≥ 1.0 then ZBadgeColor.yellow
  else ZBadgeColor.emerald

/-- AlertSummary: the pairs rendered as active arbitrage opportunities,
embedded from pairs.filter of alert different from null. -/
def alertSummaryActive (pairs : List BondPairState) : List BondPairState :=
  pairs.filter (fun p => p.alert.isSome)

/-- BondMonitorPage: the active-alert count shown in the page header,
embedded from the same filter on alert different from null. -/
def activeAlertCount (pairs : List BondPairState) : Nat :=
  (pairs.filter (fun p => p.alert.isSome)).length

/-- Claim C4: the display severity band is determined only by |z| with cut
points at 1.0, 2.0 and 2.5 (top tier at |z| at least 2.5, then 2.0, then 1.0,
else normal), and the set of pairs shown as having an active alert is exactly
those whose alert field is non-null, independent of which severity band
applies. -/
theorem c4_severity_bands_and_alert_set :
    (∀ z w : ℚ, |z| = |w| → zScoreBadgeColor z = zScoreBadgeColor w) ∧
    (∀ z : ℚ,
      (zScoreBadgeColor z = ZBadgeColor.red ↔ (2.5 : ℚ) ≤ |z|) ∧
      (zScoreBadgeColor z = ZBadgeColor.orange ↔ (2 : ℚ) ≤ |z| ∧ |z| < 2.5) ∧
      (zScoreBadgeColor z = ZBadgeColor.yellow ↔ (1 : ℚ) ≤ |z| ∧ |z| < 2) ∧
      (zScoreBadgeColor z = ZBadgeColor.emerald ↔ |z| < 1)) ∧
    (∀ (pairs : List BondPairState) (p : BondPairState),
      p ∈ alertSummaryActive pairs ↔ p ∈ pairs ∧ p.alert.isSome = true) := by
  refine ⟨?_, ?_, ?_⟩
  · intro z w h
    simp only [zScoreBadgeColor, h]
  · intro z
    simp only [zScoreBadgeColor, ge_iff_le]
    split_ifs with h1 h2 h3 <;>
      refine ⟨?_, ?_, ?_, ?_⟩ <;>
      (try simp_all) <;>
      first
        | linarith
        | (constructor <;> linarith)
        | (intro hx; linarith)
  · intro pairs p
    simp [alertSummaryActive, List.mem_filter]

/-- Witness for C4: the badge color agrees at z = 3/2 and z = -3/2, and a
pair list with one alerted pair is filtered to exactly that pair. -/
theorem c4_severity_bands_and_alert_set_witness :
    zScoreBadgeColor (3/2) = zScoreBadgeColor (-(3/2)) ∧
    (zScoreBadgeColor (3/2) = ZBadgeColor.yellow ↔ (1 : ℚ) ≤ |(3/2 : ℚ)| ∧ |(3/2 : ℚ)| < 2) :=
  ⟨c4_severity_bands_and_alert_set.1 (3/2) (-(3/2)) (by norm_num),
    (c4_severity_bands_and_alert_set.2.1 (3/2)).2.2.1⟩

-- ---------------------------------------------------------------------------
-- PairCard rendering (claims C7 and C9)
-- ---------------------------------------------------------------------------

/-- The status icon at the left of the PairCard header, embedded from the
conditional chain: eod_signal yellow triangle, else alert orange triangle,
else fetch-error red triangle, else green check. -/
inductive PairCardIcon where
  | eodWarn
  | alertWarn
  | errorWarn
  | okCheck
deriving Repr, DecidableEq

/-- PairCard: the header icon decision. -/
def pairCardIcon (s : BondPairState) : PairCardIcon :=
  if s.eod_signal then PairCardIcon.eodWarn
  else if s.alert.isSome then PairCardIcon.alertWarn
  else if s.last_fetch_error.isSome then PairCardIcon.errorWarn
  else PairCardIcon.okCheck

/-- What the right side of the PairCard header shows: the latest data (with
the optional net-spread pill and z-score badge), the fetch-error string, or
the no-data placeholder. -/
inductive PairCardRight where
  | showData (localPrice nyPrice r : ℚ) (netPill : Option ℚ) (zBadge : Option ℚ)
  | showError (msg : String)
  | showNoData
deriving Repr, DecidableEq

/-- PairCard: the header right side, embedded from the JSX ternary chain —
latest present: prices, ratio, commission pill and z badge; else fetch error
present: the error string; else the "Sin datos" placeholder. -/
def pairCardRightSide (s : BondPairState) : PairCardRight :=
  match s.latest with
  | some snap =>
      PairCardRight.showData snap.local_price snap.ny_price snap.ratio
        (s.commission.map (fun c => c.net_spread_pct))
        (s.stats.map (fun st => st.z_score))
  | Option.none =>
      match s.last_fetch_error with
      | some e => PairCardRight.showError e
      | Option.none => PairCardRight.showNoData

/-- PairCard: whether the arbitrage-alert banner row is rendered, embedded
from hasAlert AND NOT eod_signal. -/
def showAlertBanner (s : BondPairState) : Bool :=
  s.alert.isSome && !s.eod_signal

/-- Claim C7: a pair with a non-null fetch error still renders a well-defined
card — with a latest snapshot the stale data is shown and the header icon is
a warning (never the green check); without a snapshot the error string itself
is shown; and the no-data placeholder appears only when there is neither data
nor an error, over all combinations of the other fields. -/
theorem c7_pair_card_total_render (s : BondPairState) :
    (∀ e, s.last_fetch_error = some e →
      (∀ snap, s.latest = some snap →
        pairCardRightSide s = PairCardRight.showData snap.local_price
          snap.ny_price snap.ratio (s.commission.map (fun c => c.net_spread_pct))
          (s.stats.map (fun st => st.z_score)) ∧
        pairCardIcon s ≠ PairCardIcon.okCheck) ∧
      (s.latest = Option.none → pairCardRightSide s = PairCardRight.showError e ∧
        pairCardIcon s ≠ PairCardIcon.okCheck)) ∧
    (pairCardRightSide s = PairCardRight.showNoData →
      s.latest = Option.none ∧ s.last_fetch_error = Option.none) := by
  constructor
  · intro e he
    have hicon : pairCardIcon s ≠ PairCardIcon.okCheck := by
      unfold pairCardIcon
      split_ifs <;> simp_all [he]
    constructor
    · intro snap hsnap
      refine ⟨?_, hicon⟩
      simp [pairCardRightSide, hsnap]
    · intro hnone
      refine ⟨?_, hicon⟩
      simp [pairCardRightSide, hnone, he]
  · intro h
    unfold pairCardRightSide at h
    cases hl : s.latest with
    | some snap => rw [hl] at h; simp at h
    | none =>
        rw [hl] at h
        cases herr : s.last_fetch_error with
        | some e => rw [herr] at h; simp at h
        | none => exact ⟨rfl, rfl⟩

/-- A concrete errored pair state without a snapshot, for the C7 witness. -/
def errorStateW : BondPairState :=
  { config := pairW, latest := Option.none, stats := Option.none,
    alert := Option.none, commission := Option.none, history := [],
    last_fetch_error := some "IOL timeout", eod_signal := false,
    eod_action := EodAction.none }

/-- Witness for C7: the errored pair state with no snapshot renders the error
string with a warning icon. -/
theorem c7_pair_card_total_render_witness :
    pairCardRightSide errorStateW = PairCardRight.showError "IOL timeout" ∧
    pairCardIcon errorStateW ≠ PairCardIcon.okCheck :=
  ((c7_pair_card_total_render errorStateW).1 "IOL timeout" (by rfl)).2 (by rfl)

/-- Claim C9: the arbitrage-alert banner is rendered iff the alert is
non-null AND the EOD signal is inactive; while the EOD window is active the
banner is suppressed, but the alerted pair still counts toward the
active-alert total of the page header. -/
theorem c9_alert_banner_iff_alert_and_not_eod (s : BondPairState) :
    (showAlertBanner s = true ↔ s.alert.isSome = true ∧ s.eod_signal = false) ∧
    (∀ pairs : List BondPairState, s ∈ pairs → s.alert.isSome = true →
      0 < activeAlertCount pairs) := by
  constructor
  · simp [showAlertBanner]
  · intro pairs hmem halert
    unfold activeAlertCount
    rw [List.length_pos]
    intro hnil
    have := List.filter_eq_nil_iff.mp hnil s hmem
    simp [halert] at this

/-- A concrete arbitrage alert, for the C9 witness. -/
def alertW : ArbitrageAlert :=
  { pair_id := "al30", pair_label := "AL30 / AL30D",
    timestamp := "2024-01-02T16:50:00", ratio := 51/50, z_score := 2,
    direction := AlertDirection.NY_CHEAP,
    description := "ratio por encima de la banda", commission := Option.none }

/-- A concrete alerted pair state inside the EOD window, for the C9 witness. -/
def eodAlertStateW : BondPairState :=
  { config := pairW, latest := Option.none, stats := Option.none,
    alert := some alertW,
    commission := Option.none, history := [], last_fetch_error := Option.none,
    eod_signal := true, eod_action := EodAction.close }

/-- Witness for C9: an alerted pair inside the EOD window does not show the
alert banner yet still counts toward the active-alert total. -/
theorem c9_alert_banner_iff_alert_and_not_eod_witness :
    (showAlertBanner eodAlertStateW = true ↔
      eodAlertStateW.alert.isSome = true ∧ eodAlertStateW.eod_signal = false) ∧
    0 < activeAlertCount [eodAlertStateW] :=
  ⟨(c9_alert_banner_iff_alert_and_not_eod eodAlertStateW).1,
    (c9_alert_banner_iff_alert_and_not_eod eodAlertStateW).2 [eodAlertStateW]
      (List.mem_singleton.mpr rfl) (by rfl)⟩

-- ===========================================================================
-- Order placement error contract (claim C5)
-- ===========================================================================

/-- Outcome of an HTTP call as seen by the axios response interceptor
(api/client.ts): either a delivered response body, or a transport-level
failure carrying the optional backend detail string and the error message. -/
inductive AxiosOutcome (α : Type) where
  | response (data : α)
  | failure (detail : Option String) (message : String)

/-- api/client.ts interceptor message: detail of the error response when
non-empty, else the error message when non-empty, else "Unknown error"
(the JS chain with the falsy-or operator). -/
def interceptedMessage (detail : Option String) (msg : String) : String :=
  match detail with
  | some d => if d = "" then (if msg = "" then "Unknown error" else msg) else d
  | Option.none => if msg = "" then "Unknown error" else msg

/-- api/client.ts response interceptor: a delivered response is passed
through untouched whatever its body says; a transport failure is rejected
as an error with the intercepted message. -/
def axiosInterceptor {α : Type} (r : AxiosOutcome α) : Except String α :=
  match r with
  | AxiosOutcome.response d => Except.ok d
  | AxiosOutcome.failure detail msg => Except.error (interceptedMessage detail msg)

/-- Result of the broker collaborator for one order. -/
inductive BrokerResult where
  | accepted (order_id : String)
  | rejected (reason : String)
deriving Repr, DecidableEq

/-- Modelled from the spec: the POST /bonds/order backend handler is not
under src/. Per the contract, a business-level rejection by the broker is
returned as a BondOrderResponse with success false, a null order id and the
human-readable reason; an accepted order returns success true with the
order identifier; neither is raised as an exception. -/
def orderEndpoint (req : BondOrderRequest) (br : BrokerResult) : BondOrderResponse :=
  match br with
  | BrokerResult.accepted oid =>
      { success := true, order_id := some oid, message := "Orden enviada",
        sandbox := req.sandbox, raw_response := Option.none }
  | BrokerResult.rejected reason =>
      { success := false, order_id := Option.none, message := reason,
        sandbox := req.sandbox, raw_response := Option.none }

/-- What happens to one order call at the transport layer: the request
reaches the backend and a broker result is produced, or the transport fails. -/
inductive OrderTransport where
  | delivered (br : BrokerResult)
  | transportFailure (detail : Option String) (message : String)

/-- placeBondOrder (api/bonds.ts) composed with the response interceptor:
the typed result the caller of the API sees. -/
def placeBondOrderResult (req : BondOrderRequest) (t : OrderTransport) :
    Except String BondOrderResponse :=
  match t with
  | OrderTransport.delivered br =>
      axiosInterceptor (AxiosOutcome.response (orderEndpoint req br))
  | OrderTransport.transportFailure d m =>
      axiosInterceptor (AxiosOutcome.failure d m)

/-- Claim C5: a business-level rejection is returned as a BondOrderResponse
with success false, a human-readable message and a null order id, never
raised; the call throws exactly on transport-level failure; and on success
the response carries success true with the order identifier. -/
theorem c5_order_rejection_structured :
    (∀ (req : BondOrderRequest) (reason : String),
      placeBondOrderResult req (OrderTransport.delivered (BrokerResult.rejected reason)) =
        Except.ok
          { success := false, order_id := Option.none, message := reason,
            sandbox := req.sandbox, raw_response := Option.none }) ∧
    (∀ (req : BondOrderRequest) (oid : String),
      placeBondOrderResult req (OrderTransport.delivered (BrokerResult.accepted oid)) =
        Except.ok (orderEndpoint req (BrokerResult.accepted oid)) ∧
      (orderEndpoint req (BrokerResult.accepted oid)).success = true ∧
      (orderEndpoint req (BrokerResult.accepted oid)).order_id = some oid) ∧
    (∀ (req : BondOrderRequest) (t : OrderTransport),
      (∃ e, placeBondOrderResult req t = Except.error e) ↔
        ∃ d m, t = OrderTransport.transportFailure d m) := by
  refine ⟨?_, ?_, ?_⟩
  · intro req reason
    rfl
  · intro req oid
    exact ⟨rfl, rfl, rfl⟩
  · intro req t
    cases t with
    | delivered br =>
        simp [placeBondOrderResult, axiosInterceptor]
    | transportFailure d m =>
        constructor
        · intro _
          exact ⟨d, m, rfl⟩
        · intro _
          exact ⟨interceptedMessage d m, rfl⟩

/-- A concrete order request, for the C5 and C10 witnesses. -/
def reqW : BondOrderRequest :=
  { pair_id := "al30", symbol := "AL30", side := OrderSide.buy,
    quantity := 1000, price := 68, plazo := OrderPlazo.t2, sandbox := true }

/-- Witness for C5: a rejected order on the concrete request yields a
success-false response, and a concrete transport failure is the exact case
in which the call throws. -/
theorem c5_order_rejection_structured_witness :
    placeBondOrderResult reqW (OrderTransport.delivered (BrokerResult.rejected "saldo insuficiente")) =
      Except.ok
        { success := false, order_id := Option.none,
          message := "saldo insuficiente", sandbox := reqW.sandbox,
          raw_response := Option.none } ∧
    ((∃ e, placeBondOrderResult reqW
        (OrderTransport.transportFailure Option.none "timeout") = Except.error e) ↔
      ∃ d m, OrderTransport.transportFailure Option.none "timeout" =
        OrderTransport.transportFailure d m) :=
  ⟨c5_order_rejection_structured.1 reqW "saldo insuficiente",
    c5_order_rejection_structured.2.2 reqW
      (OrderTransport.transportFailure Option.none "timeout")⟩

-- ===========================================================================
-- Refresh serialization (claim C8)
-- ===========================================================================

/-- BondsStatusResponse (bonds.ts): aggregate status of the bond monitor. -/
structure BondsStatusResponse where
  pairs : List BondPairState
  last_refresh_at : Option String
  next_refresh_at : Option String
  refresh_running : Bool
  iol_authenticated : Bool
  market_open : Bool
  eod_signal : Bool
  commission_rate : ℚ
deriving Repr, DecidableEq

/-- BondMonitorPage: isRefreshing — the backend reports a running refresh
(undefined status counts as false) or the manual trigger mutation is still
pending. -/
def isRefreshing (status : Option BondsStatusResponse) (isPending : Bool) : Bool :=
  (status.map (fun s => s.refresh_running)).getD false || isPending

/-- BondMonitorPage: the manual refresh button is disabled exactly when
isRefreshing holds. -/
def refreshButtonDisabled (status : Option BondsStatusResponse) (isPending : Bool) : Bool :=
  isRefreshing status isPending

/-- Events seen by the refresh scheduler: a trigger (scheduled or manual) and
the completion of the running cycle. -/
inductive RefreshEvent where
  | trigger
  | complete
deriving Repr, DecidableEq

/-- Modelled from the spec: the RefreshScheduler in-flight guard (the backend
scheduler module is not under src/). The running flag is the single guard
both trigger paths serialize on; inFlight counts cycles currently running. -/
structure RefreshSchedulerState where
  running : Bool
  inFlight : Nat
deriving Repr, DecidableEq

/-- Modelled from the spec: a trigger while a refresh is in flight is a
no-op; otherwise it starts a cycle and takes the guard. Completion of the
running cycle releases the guard. -/
def refreshSchedStep (s : RefreshSchedulerState) : RefreshEvent → RefreshSchedulerState
  | RefreshEvent.trigger =>
      if s.running then s
      else { running := true, inFlight := s.inFlight + 1 }
  | RefreshEvent.complete =>
      if s.running then { running := false, inFlight := s.inFlight - 1 }
      else s

/-- A run of the scheduler guard from the idle initial state. -/
def refreshSchedRun (events : List RefreshEvent) : RefreshSchedulerState :=
  events.foldl refreshSchedStep { running := false, inFlight := 0 }

theorem refreshSched_inv (events : List RefreshEvent) :
    (refreshSchedRun events).inFlight =
      (if (refreshSchedRun events).running then 1 else 0) := by
  unfold refreshSchedRun
  have hstep : ∀ (s : RefreshSchedulerState) (e : RefreshEvent),
      s.inFlight = (if s.running then 1 else 0) →
      (refreshSchedStep s e).inFlight =
        (if (refreshSchedStep s e).running then 1 else 0) := by
    intro s e h
    cases e <;> unfold refreshSchedStep <;> by_cases hr : s.running = true <;>
      simp_all
  have hfold : ∀ (s : RefreshSchedulerState),
      s.inFlight = (if s.running then 1 else 0) →
      (events.foldl refreshSchedStep s).inFlight =
        (if (events.foldl refreshSchedStep s).running then 1 else 0) := by
    induction events with
    | nil => intro s h; simpa using h
    | cons a l ih =>
        intro s h
        simp only [List.foldl_cons]
        exact ih (refreshSchedStep s a) (hstep s a h)
  exact hfold { running := false, inFlight := 0 } (by simp)

/-- Claim C8: a second refresh trigger arriving while one is in flight is a
no-op — at most one cycle is ever in flight over any event sequence — and in
the UI the manual trigger control is disabled exactly while isRefreshing is
true (refresh_running reported true, or the manual trigger still pending). -/
theorem c8_refresh_serialization :
    (∀ events : List RefreshEvent, (refreshSchedRun events).inFlight ≤ 1) ∧
    (∀ s : RefreshSchedulerState, s.running = true →
      refreshSchedStep s RefreshEvent.trigger = s) ∧
    (∀ (status : Option BondsStatusResponse) (isPending : Bool),
      refreshButtonDisabled status isPending = true ↔
        ((∃ st, status = some st ∧ st.refresh_running = true) ∨ isPending = true)) := by
  refine ⟨?_, ?_, ?_⟩
  · intro events
    rw [refreshSched_inv events]
    split_ifs <;> simp
  · intro s h
    unfold refreshSchedStep
    rw [if_pos h]
  · intro status isPending
    cases status with
    | none => simp [refreshButtonDisabled, isRefreshing]
    | some st => simp [refreshButtonDisabled, isRefreshing]

/-- Witness for C8: a trigger in the concrete running state is a no-op, two
rapid triggers from idle leave one cycle in flight, and the disabled iff
holds at a concrete pending state. -/
theorem c8_refresh_serialization_witness :
    refreshSchedStep { running := true, inFlight := 1 } RefreshEvent.trigger =
      { running := true, inFlight := 1 } ∧
    (refreshSchedRun [RefreshEvent.trigger, RefreshEvent.trigger]).inFlight ≤ 1 ∧
    (refreshButtonDisabled Option.none true = true ↔
      ((∃ st, (Option.none : Option BondsStatusResponse) = some st ∧
        st.refresh_running = true) ∨ (true : Bool) = true)) :=
  ⟨c8_refresh_serialization.2.1 { running := true, inFlight := 1 } rfl,
    c8_refresh_serialization.1 [RefreshEvent.trigger, RefreshEvent.trigger],
    c8_refresh_serialization.2.2 Option.none true⟩

-- ===========================================================================
-- OrderPanel safety (claim C10)
-- ===========================================================================

/-- The local state of the OrderPanel component (its useState hooks). -/
structure OrderPanelState where
  symbol : String
  side : OrderSide
  quantity : ℚ
  price : ℚ
  plazo : OrderPlazo
  sandbox : Bool
deriving Repr, DecidableEq

/-- OrderPanel: initial state — local symbol, buy side, quantity 1000, price
from the latest snapshot (0 when absent), plazo t2, and sandbox true for
safety. -/
def initOrderPanel (config : BondPairConfig) (latest : Option RatioSnapshot) :
    OrderPanelState :=
  { symbol := config.local_symbol, side := OrderSide.buy, quantity := 1000,
    price := (latest.map (fun l => l.local_price)).getD 0,
    plazo := OrderPlazo.t2, sandbox := true }

/-- User interactions on the OrderPanel form. The sandbox toggle carries the
checked value of the checkbox input (which displays NOT sandbox). -/
inductive OrderPanelEvent where
  | selectSymbol (s : String)
  | selectSide (sd : OrderSide)
  | setQuantity (q : ℚ)
  | setPrice (p : ℚ)
  | selectPlazo (pl : OrderPlazo)
  | toggleSandbox (checked : Bool)
deriving Repr, DecidableEq

/-- OrderPanel: state transitions of the form, embedded from the handlers —
handleSymbolChange also resets the price to the matching leg price. -/
def applyPanelEvent (config : BondPairConfig) (latest : Option RatioSnapshot)
    (st : OrderPanelState) : OrderPanelEvent → OrderPanelState
  | OrderPanelEvent.selectSymbol s =>
      { st with
        symbol := s
        price := if s = config.local_symbol
          then (latest.map (fun l => l.local_price)).getD 0
          else (latest.map (fun l => l.ny_price)).getD 0 }
  | OrderPanelEvent.selectSide sd => { st with side := sd }
  | OrderPanelEvent.setQuantity q => { st with quantity := q }
  | OrderPanelEvent.setPrice p => { st with price := p }
  | OrderPanelEvent.selectPlazo pl => { st with plazo := pl }
  | OrderPanelEvent.toggleSandbox checked => { st with sandbox := !checked }

/-- OrderPanel: the submit button disabled condition — a submission pending,
or non-positive quantity, or non-positive price. -/
def submitDisabled (isPending : Bool) (st : OrderPanelState) : Bool :=
  isPending || decide (st.quantity ≤ 0) || decide (st.price ≤ 0)

/-- OrderPanel: clicking submit fires the mutation with the request built
from the form state; a disabled button fires nothing. -/
def clickSubmit (pair_id : String) (isPending : Bool) (st : OrderPanelState) :
    Option BondOrderRequest :=
  if submitDisabled isPending st then Option.none
  else some
    { pair_id := pair_id, symbol := st.symbol, side := st.side,
      quantity := st.quantity, price := st.price, plazo := st.plazo,
      sandbox := st.sandbox }

/-- Claim C10: the order panel starts with sandbox true (simulation
mode); the submit action is disabled whenever quantity or price is
non-positive or a submission is pending, so any submitted request has
positive quantity and price and no pending submission; and without an
explicit sandbox toggle every submitted request stays in sandbox mode. -/
theorem panel_sandbox_preserved (config : BondPairConfig)
    (latest : Option RatioSnapshot) :
    ∀ (evs : List OrderPanelEvent) (st : OrderPanelState),
      st.sandbox = true →
      (∀ e ∈ evs, ∀ b, e ≠ OrderPanelEvent.toggleSandbox b) →
      (evs.foldl (applyPanelEvent config latest) st).sandbox = true := by
  intro evs
  induction evs with
  | nil => intro st h _; simpa using h
  | cons a l ih =>
      intro st h hno
      simp only [List.foldl_cons]
      refine ih (applyPanelEvent config latest st a) ?_ ?_
      · cases a with
        | toggleSandbox b =>
            exact absurd rfl (hno (OrderPanelEvent.toggleSandbox b)
              (List.mem_cons_self _ _) b)
        | selectSymbol s => simpa [applyPanelEvent] using h
        | selectSide sd => simpa [applyPanelEvent] using h
        | setQuantity q => simpa [applyPanelEvent] using h
        | setPrice p => simpa [applyPanelEvent] using h
        | selectPlazo pl => simpa [applyPanelEvent] using h
      · intro e he b
        exact hno e (List.mem_cons_of_mem _ he) b

theorem c10_order_panel_safety :
    (∀ (config : BondPairConfig) (latest : Option RatioSnapshot),
      (initOrderPanel config latest).sandbox = true) ∧
    (∀ (pid : String) (isPending : Bool) (st : OrderPanelState)
        (req : BondOrderRequest), clickSubmit pid isPending st = some req →
      0 < req.quantity ∧ 0 < req.price ∧ isPending = false ∧
        req.sandbox = st.sandbox) ∧
    (∀ (config : BondPairConfig) (latest : Option RatioSnapshot)
        (evs : List OrderPanelEvent),
      (∀ e ∈ evs, ∀ b, e ≠ OrderPanelEvent.toggleSandbox b) →
      (evs.foldl (applyPanelEvent config latest) (initOrderPanel config latest)).sandbox = true) := by
  refine ⟨?_, ?_, ?_⟩
  · intro config latest
    rfl
  · intro pid isPending st req h
    unfold clickSubmit at h
    split_ifs at h with hd
    simp only [Option.some.injEq] at h
    have hd2 : isPending = false ∧ 0 < st.quantity ∧ 0 < st.price := by
      simp only [submitDisabled, Bool.or_eq_true, decide_eq_true_eq, not_or,
        Bool.not_eq_true, not_le] at hd
      exact ⟨hd.1.1, hd.1.2, hd.2⟩
    refine ⟨?_, ?_, hd2.1, ?_⟩ <;> rw [← h] <;> simp [hd2.2.1, hd2.2.2]
  · intro config latest evs hnotoggle
    exact panel_sandbox_preserved config latest evs
      (initOrderPanel config latest) rfl hnotoggle

/-- A concrete snapshot for the C10 witness. -/
def snapW : RatioSnapshot :=
  { pair_id := "al30", timestamp := "2024-01-02T14:00:00",
    local_price := 68, ny_price := 67, ratio := 68/67,
    mean := Option.none, upper2 := Option.none, lower2 := Option.none,
    upper1 := Option.none, lower1 := Option.none, z_score := Option.none }

/-- Witness for C10: the panel for the concrete pair starts in sandbox mode;
submitting its initial state (quantity 1000, positive price, not pending)
fires a request with positive quantity and price still in sandbox mode; and
a quantity edit alone leaves sandbox mode on. -/
theorem c10_order_panel_safety_witness :
    (initOrderPanel pairW (some snapW)).sandbox = true ∧
    (0 < reqW.quantity ∧ 0 < reqW.price ∧ false = false ∧
      reqW.sandbox = (initOrderPanel pairW (some snapW)).sandbox) ∧
    (([OrderPanelEvent.setQuantity 500].foldl
      (applyPanelEvent pairW (some snapW))
      (initOrderPanel pairW (some snapW))).sandbox = true) :=
  ⟨c10_order_panel_safety.1 pairW (some snapW),
    c10_order_panel_safety.2.1 "al30" false (initOrderPanel pairW (some snapW)) reqW
      (by simp [clickSubmit, submitDisabled, initOrderPanel, pairW, snapW, reqW]),
    c10_order_panel_safety.2.2 pairW (some snapW) [OrderPanelEvent.setQuantity 500]
      (by
        intro e he b
        simp only [List.mem_singleton] at he
        subst he
        simp)⟩
